import Mathlib

/-!
Verification development for the xESMF low-level backend
(`src/xesmf/backend.py`).

The backend is a thin procedural wrapper around the external ESMPy
regridding engine.  We give a shallow embedding:

* numpy arrays are modelled by `NDArray`: a logical shape, the flattened
  (row-major) element data, and the `F_CONTIGUOUS` flag;
* the Python exceptions raised by the wrapper are modelled by the
  inductive `Err`;
* `esmf_grid`, `add_corner`, `esmf_regrid_build`, `esmf_regrid_apply`
  and `esmf_regrid_finalize` are translated statement by statement,
  threading emitted warnings and the post-state explicitly;
* the external engine (ESMPy / native ESMF) is out of scope of the
  backend itself; the little of it that the backend observably relies on
  is modelled from the documented interface, and each such place is
  marked `Modelled from the spec:` in its doc comment.

Element values are modelled as integers: none of the verified contracts
concern the numerical interpolation itself, which the backend delegates
wholesale to the external engine.
-/

set_option autoImplicit false

namespace XesmfBackend

/-- Model of a numpy ndarray: logical `shape`, flattened element `data`
in row-major order, and the `F_CONTIGUOUS` memory-layout flag. -/
structure NDArray where
  shape : List Nat
  data : List Int
  fortran : Bool
deriving Repr, DecidableEq, Inhabited

/-- The error kinds raised by the backend.  In the Python source,
`ShapeError` and `WeightFileExistsError` are `AssertionError`s from the
explicit `assert` statements, `InvalidMethodError` and
`MissingCornersError` are `ValueError`s; the constructor names follow
the specification vocabulary.  `EngineError` stands for a failure raised
inside the external ESMPy engine.  `UseAfterFinalizeError` is never
raised anywhere in the source; the constructor exists so that the
specification claim about it can be stated. -/
inductive Err where
  | ShapeError : String → Err
  | InvalidMethodError : List String → Err
  | MissingCornersError : String → Err
  | WeightFileExistsError : Err
  | EngineError : String → Err
  | UseAfterFinalizeError : Err
deriving Repr, DecidableEq

/-- Whether an error is a shape/dimension mismatch. -/
def Err.isShapeError : Err → Bool
  | .ShapeError _ => true
  | _ => false

/-- Result of a Python call: a value, or a raised exception. -/
inductive PyResult (α : Type) where
  | ok : α → PyResult α
  | raised : Err → PyResult α
deriving Repr, DecidableEq, Inhabited

/-- Whether a call returned normally. -/
def PyResult.isOk {α : Type} : PyResult α → Bool
  | .ok _ => true
  | .raised _ => false

/-- Product of a shape, i.e. the number of elements of an array. -/
def prodList : List Nat → Nat
  | [] => 1
  | n :: ns => n * prodList ns

/-- Row-major flat index of a multi-index into a shape. -/
def flatIndex : List Nat → List Nat → Nat
  | _ :: ns, i :: is => i * prodList ns + flatIndex ns is
  | _, _ => 0

/-- All multi-indices of a shape, in row-major order. -/
def allIndices : List Nat → List (List Nat)
  | [] => [[]]
  | n :: ns => (List.range n).flatMap fun i => (allIndices ns).map fun is => i :: is

/-- Trailing-aligned broadcast test on reversed shapes: every source
dimension must be `1` or must equal the aligned destination dimension,
and extra leading source dimensions must all be `1`. -/
def bcastRev : List Nat → List Nat → Bool
  | [], _ => true
  | s :: ss, [] => (s == 1) && bcastRev ss []
  | s :: ss, d :: ds => ((s == 1) || (s == d)) && bcastRev ss ds

/-- numpy broadcastability of shape `src` to shape `dst`, as used by
the element assignment `a[...] = b`. -/
def broadcastableTo (src dst : List Nat) : Bool :=
  bcastRev src.reverse dst.reverse

/-- Source multi-index corresponding to destination multi-index `idx`
under broadcasting: align trailing dimensions, read index `0` along any
size-one source dimension. -/
def bcIndex (srcShape idx : List Nat) : List Nat :=
  let n := srcShape.length
  let m := idx.length
  let idx2 := if n ≤ m then idx.drop (m - n) else List.replicate (n - m) 0 ++ idx
  (srcShape.zip idx2).map fun p => if p.1 = 1 then 0 else p.2

/-- The numpy element assignment `buffer[...] = src` into a buffer of
shape `dstShape`: fails (raises, in Python a broadcast `ValueError`)
unless `src` is broadcastable to `dstShape`, and otherwise overwrites
every element of the buffer. -/
def npBroadcastAssign (dstShape : List Nat) (src : NDArray) : Option (List Int) :=
  if broadcastableTo src.shape dstShape then
    some ((allIndices dstShape).map fun idx =>
      src.data.getD (flatIndex src.shape (bcIndex src.shape idx)) 0)
  else
    none

/-- The text of the performance warning emitted for arrays that are not
Fortran-contiguous. -/
def fWarnMsg : String :=
  "Input array is not F_CONTIGUOUS. Will affect performance."

/-- `warn_f_contiguous(a)`: give a warning if the input array is not
Fortran-ordered.  Pure warning emission; never raises. -/
def warn_f_contiguous (a : NDArray) : List String :=
  if a.fortran then [] else [fWarnMsg]

/-- Model of an `ESMF.Grid` built by `esmf_grid`: `maxIndex` is the
stored center shape (`np.array(lon.shape)` passed to the `ESMF.Grid`
constructor), the center coordinate buffers hold copies of the input
data, and the corner buffers are attached later by `add_corner`. -/
structure Grid where
  maxIndex : List Nat
  centerLonData : List Int
  centerLatData : List Int
  cornerLonData : Option (List Int)
  cornerLatData : Option (List Int)
deriving Repr, DecidableEq, Inhabited

/-- The `grid.has_corners` property of ESMPy: true once corner
coordinates have been attached. -/
def Grid.has_corners (g : Grid) : Bool :=
  g.cornerLonData.isSome

/-- `esmf_grid(lon, lat)`: warn about contiguity of both inputs, assert
that `lon` is 2-dimensional and that the two shapes agree, then build
the grid and copy both coordinate arrays into its buffers. -/
def esmf_grid (lon lat : NDArray) : List String × PyResult Grid :=
  (warn_f_contiguous lon ++ warn_f_contiguous lat,
   if lon.shape.length ≠ 2 then
     .raised (.ShapeError "Input grid must be 2D array")
   else if lon.shape ≠ lat.shape then
     .raised (.ShapeError "lon and lat must have same shape")
   else
     .ok ⟨lon.shape, lon.data, lat.data, none, none⟩)

/-- `add_corner(grid, lon_b, lat_b)`: warn about contiguity, run the
three shape assertions, and only then attach the corner buffers.  The
returned `Grid` is the post-state of the in-place mutation; the
`Option Err` is the raised exception, if any. -/
def add_corner (grid : Grid) (lon_b lat_b : NDArray) :
    List String × Grid × Option Err :=
  (warn_f_contiguous lon_b ++ warn_f_contiguous lat_b,
   if lon_b.shape.length ≠ 2 then
     (grid, some (.ShapeError "Input grid must be 2D array"))
   else if lon_b.shape ≠ lat_b.shape then
     (grid, some (.ShapeError "lon_b and lat_b must have same shape"))
   else if lon_b.shape ≠ grid.maxIndex.map (· + 1) then
     (grid, some (.ShapeError "lon_b should be size (Nx+1, Ny+1)"))
   else
     ({ grid with cornerLonData := some lon_b.data,
                  cornerLatData := some lat_b.data }, none))

/-- Model of an `ESMF.Field`: the buffer array plus the `finalized`
flag that ESMPy sets when the field is destroyed.  `Modelled from the
spec:` the engine-side allocation; the buffer shape is
`grid shape ++ extra_dims` as documented for `ndbounds`. -/
structure Field where
  arr : NDArray
  finalized : Bool
deriving Repr, DecidableEq, Inhabited

/-- The sparse destination-cell to weighted-source-cells mapping held by
a regrid object; purely geometric, computed by the external engine. -/
def Route := List (Nat × List (Nat × Int))
deriving instance Repr, DecidableEq, Inhabited for Route

/-- Model of an `ESMF.Regrid`: the two fields it points to, the sparse
mapping, and the `finalized` flag set by `destroy()`. -/
structure Regrid where
  srcfield : Field
  dstfield : Field
  route : Route
  finalized : Bool
deriving Repr, DecidableEq, Inhabited

/-- `Modelled from the spec:` one application of the stored sparse
mapping by the external engine.  Every destination cell that has a
mapping entry is populated from the source buffer; unmapped destination
cells are left at whatever value the buffer already held (the engine
does not zero-fill them). -/
def applyRoute (route : Route) (src dst : List Int) : List Int :=
  (List.range dst.length).map fun i =>
    match List.lookup i route with
    | some contribs => (contribs.map fun c => c.2 * src.getD c.1 0).sum
    | none => dst.getD i 0

/-- The association list mapping method names to ESMPy regrid-method
codes, in source order; the numeric codes model the opaque
`ESMF.RegridMethod` constants. -/
def method_dict : List (String × Nat) :=
  [("bilinear", 0), ("conservative", 2), ("patch", 1),
   ("nearest_s2d", 3), ("nearest_d2s", 4)]

/-- The valid method names, as echoed by the invalid-method error. -/
def valid_methods : List String :=
  ["bilinear", "conservative", "patch", "nearest_s2d", "nearest_d2s"]

/-- Result of `esmf_regrid_build`: the returned regrid object or the
raised error, the file system after the call, and how many times the
external weight-computation engine (`ESMF.Regrid`) was invoked. -/
structure BuildOut where
  result : PyResult Regrid
  fs : List (String × Nat)
  engineCalls : Nat
deriving Repr, DecidableEq, Inhabited

/-- `esmf_regrid_build(sourcegrid, destgrid, method, filename,
extra_dims)`: look the method up in `method_dict` (failure raises the
error listing the valid set), run the conservative-method corner checks
(source grid first), construct the two fields with buffer shape
`grid shape ++ extra_dims`, assert that the weight file does not already
exist, and only then invoke the external engine, which computes the
sparse mapping and, when a filename was supplied, writes the weight
file.  The file system is an association list of paths; `engineRoute`
stands for the out-of-scope weight computation (`Modelled from the
spec:` a trusted external component receiving the grids and the method
code). -/
def esmf_regrid_build (sourcegrid destgrid : Grid) (method : String)
    (filename : Option String) (extra_dims : List Nat)
    (engineRoute : Grid → Grid → Nat → Route)
    (fs : List (String × Nat)) : BuildOut :=
  match List.lookup method method_dict with
  | none => ⟨.raised (.InvalidMethodError (method_dict.map Prod.fst)), fs, 0⟩
  | some code =>
    if method = "conservative" ∧ sourcegrid.has_corners = false then
      ⟨.raised (.MissingCornersError "source"), fs, 0⟩
    else if method = "conservative" ∧ destgrid.has_corners = false then
      ⟨.raised (.MissingCornersError "destination"), fs, 0⟩
    else
      let srcShape := sourcegrid.maxIndex ++ extra_dims
      let dstShape := destgrid.maxIndex ++ extra_dims
      let sourcefield : Field := ⟨⟨srcShape, List.replicate (prodList srcShape) 0, true⟩, false⟩
      let destfield : Field := ⟨⟨dstShape, List.replicate (prodList dstShape) 0, true⟩, false⟩
      match filename with
      | some p =>
        if (List.lookup p fs).isSome then
          ⟨.raised .WeightFileExistsError, fs, 0⟩
        else
          ⟨.ok ⟨sourcefield, destfield, engineRoute sourcegrid destgrid code, false⟩,
           fs ++ [(p, 1)], 1⟩
      | none =>
        ⟨.ok ⟨sourcefield, destfield, engineRoute sourcegrid destgrid code, false⟩,
         fs, 1⟩

/-- `esmf_regrid_apply(regrid, indata)`: warn about contiguity, write
`indata` into the source buffer by the numpy broadcast assignment
`sourcefield.data[...] = indata`, then invoke the regrid engine call,
and return `destfield.data` — the destination buffer itself.  There is
no finalized check anywhere in this function; the engine call is the
point that rejects a destroyed regrid (`Modelled from the spec:` per the
documented lifecycle, after `destroy()` the regrid method can no longer
be used, while the field data still exists, so the buffer write
succeeds).  The middle component of the result is the post-state of the
operator. -/
def esmf_regrid_apply (regrid : Regrid) (indata : NDArray) :
    List String × Regrid × PyResult NDArray :=
  (warn_f_contiguous indata,
   match npBroadcastAssign regrid.srcfield.arr.shape indata with
   | none => (regrid, .raised (.ShapeError "could not broadcast input array into source field"))
   | some newSrc =>
     let r1 : Regrid :=
       { regrid with srcfield := { regrid.srcfield with arr := { regrid.srcfield.arr with data := newSrc } } }
     if r1.finalized then
       (r1, .raised (.EngineError "Regrid object has been destroyed"))
     else
       let newDst := applyRoute r1.route r1.srcfield.arr.data r1.dstfield.arr.data
       let r2 : Regrid :=
         { r1 with dstfield := { r1.dstfield with arr := { r1.dstfield.arr with data := newDst } } }
       (r2, .ok ⟨r2.dstfield.arr.shape, r2.dstfield.arr.data, true⟩))

/-- `esmf_regrid_finalize(regrid)`: destroy both fields and the regrid
object.  Destroying sets the `finalized` flags; the buffer data is kept
(`Modelled from the spec:` the documented lifecycle states that after
`destroy()` the input and output data still exist).  The three trailing
`assert ... finalized` double checks of the source hold by
construction. -/
def esmf_regrid_finalize (regrid : Regrid) : Regrid :=
  { regrid with
    srcfield := { regrid.srcfield with finalized := true }
    dstfield := { regrid.dstfield with finalized := true }
    finalized := true }

/-- The contents a caller observes, at any later time, through an array
returned by `esmf_regrid_apply`: the source returns `destfield.data`
itself, so the returned object is a view of the destination buffer of
the operator and reads its current contents. -/
def outputView (r : Regrid) : List Int :=
  r.dstfield.arr.data

/-- The flip of the contiguity flag of an array: same shape, same data,
different memory layout. -/
def setF (a : NDArray) (b : Bool) : NDArray :=
  { a with fortran := b }

/-! Concrete example values used by counterexamples and witnesses. -/

/-- A concrete 2 by 2 center grid (as produced by `esmf_grid`). -/
def exGrid2 : Grid := ⟨[2, 2], [0, 1, 0, 1], [0, 0, 1, 1], none, none⟩

/-- A concrete 2 by 2 grid with corner coordinates attached. -/
def exGridC : Grid :=
  ⟨[2, 2], [0, 1, 0, 1], [0, 0, 1, 1],
   some (List.replicate 9 0), some (List.replicate 9 0)⟩

/-- A concrete 4 by 5 center grid, matching the example of the
specification. -/
def exG45 : Grid :=
  ⟨[4, 5], List.replicate 20 0, List.replicate 20 0, none, none⟩

/-- A concrete identity weight computation for the examples: each of the
four destination cells of a 2 by 2 grid is mapped from the same source
cell with weight one. -/
def exRouteFn : Grid → Grid → Nat → Route := fun _ _ _ =>
  [(0, [(0, 1)]), (1, [(1, 1)]), (2, [(2, 1)]), (3, [(3, 1)])]

/-- A concrete successful build: identity regridding of the 2 by 2 grid
onto itself with method `bilinear`, no weight file, no extra
dimensions. -/
def exBuild2 : BuildOut :=
  esmf_regrid_build exGrid2 exGrid2 "bilinear" none [] exRouteFn []

/-- Extract the operator from a build result. -/
def getOp : PyResult Regrid → Regrid
  | .ok r => r
  | .raised _ => default

/-- The operator returned by the concrete build `exBuild2`. -/
def exOp2 : Regrid := getOp exBuild2.result

/-- A concrete one-cell identity operator. -/
def exOp : Regrid :=
  ⟨⟨⟨[1, 1], [0], true⟩, false⟩, ⟨⟨[1, 1], [0], true⟩, false⟩,
   [(0, [(0, 1)])], false⟩

/-- A one-cell input array holding `7`. -/
def exIn7 : NDArray := ⟨[1, 1], [7], true⟩

/-- A one-cell input array holding `9`. -/
def exIn9 : NDArray := ⟨[1, 1], [9], true⟩

/-- A 2 by 2 input array holding `5, 6, 7, 8`. -/
def exIn4 : NDArray := ⟨[2, 2], [5, 6, 7, 8], true⟩

/-- The operator state after the first example apply of `exIn7` through
`exOp`. -/
def exR1 : Regrid := (esmf_regrid_apply exOp exIn7).2.1

/-! ## Claim theorems -/

/-- Claim C8: for every pair `(lon, lat)` of 2-dimensional arrays of
identical shape, `esmf_grid` succeeds and the resulting grid's stored
center shape equals the input shape; for every pair whose shapes differ,
or whose arrays are not exactly 2-dimensional, `esmf_grid` fails with a
`ShapeError`. -/
theorem C8_makeGrid_shape (lon lat : NDArray) :
    ((esmf_grid lon lat).2.isOk = true ↔
       lon.shape.length = 2 ∧ lat.shape.length = 2 ∧ lon.shape = lat.shape) ∧
    (∀ g : Grid, (esmf_grid lon lat).2 = .ok g → g.maxIndex = lon.shape) ∧
    (∀ e : Err, (esmf_grid lon lat).2 = .raised e → e.isShapeError = true) := by
  refine ⟨?_, ?_, ?_⟩ <;> simp only [esmf_grid] <;> split_ifs with h1 h2 <;>
    simp_all [PyResult.isOk, Err.isShapeError]

/-- Witness for C8: the concrete 2 by 2 pair succeeds and stores center
shape `[2, 2]`; a `[2, 2]` against `[2, 3]` pair raises a shape error. -/
theorem C8_witness :
    ((esmf_grid ⟨[2, 2], [0, 1, 0, 1], true⟩ ⟨[2, 2], [0, 0, 1, 1], true⟩).2.isOk = true) ∧
    (exGrid2.maxIndex = (⟨[2, 2], [0, 1, 0, 1], true⟩ : NDArray).shape) ∧
    (Err.isShapeError (.ShapeError "lon and lat must have same shape") = true) :=
  ⟨(C8_makeGrid_shape ⟨[2, 2], [0, 1, 0, 1], true⟩ ⟨[2, 2], [0, 0, 1, 1], true⟩).1.mpr
     (by decide),
   (C8_makeGrid_shape ⟨[2, 2], [0, 1, 0, 1], true⟩ ⟨[2, 2], [0, 0, 1, 1], true⟩).2.1
     exGrid2 (by decide),
   (C8_makeGrid_shape ⟨[2, 2], [0, 1, 0, 1], true⟩ ⟨[2, 3], [0, 0, 1, 1, 2, 2], true⟩).2.2
     (.ShapeError "lon and lat must have same shape") (by decide)⟩

/-- Claim C7: for a grid with center shape `(Nx, Ny)`, `add_corner`
succeeds if and only if the two corner arrays are 2-dimensional,
identically shaped, and shaped exactly `(Nx+1, Ny+1)`; every violation
fails with a `ShapeError`. -/
theorem C7_addCorners_shape (g : Grid) (lon_b lat_b : NDArray) :
    ((add_corner g lon_b lat_b).2.2 = none ↔
       lon_b.shape.length = 2 ∧ lat_b.shape.length = 2 ∧
       lon_b.shape = lat_b.shape ∧ lon_b.shape = g.maxIndex.map (· + 1)) ∧
    (∀ e : Err, (add_corner g lon_b lat_b).2.2 = some e → e.isShapeError = true) := by
  refine ⟨?_, ?_⟩ <;> simp only [add_corner] <;> split_ifs with h1 h2 h3 <;>
    simp_all [Err.isShapeError]

/-- Witness for C7: a `(4, 5)` center grid accepts `(5, 6)` corners and
rejects `(5, 5)` corners. -/
theorem C7_witness :
    ((add_corner exG45 ⟨[5, 6], List.replicate 30 0, true⟩
        ⟨[5, 6], List.replicate 30 0, true⟩).2.2 = none) ∧
    ((add_corner exG45 ⟨[5, 5], List.replicate 25 0, true⟩
        ⟨[5, 5], List.replicate 25 0, true⟩).2.2 ≠ none) :=
  ⟨(C7_addCorners_shape exG45 ⟨[5, 6], List.replicate 30 0, true⟩
      ⟨[5, 6], List.replicate 30 0, true⟩).1.mpr (by decide),
   fun h => absurd ((C7_addCorners_shape exG45 ⟨[5, 5], List.replicate 25 0, true⟩
      ⟨[5, 5], List.replicate 25 0, true⟩).1.mp h) (by decide)⟩

/-- Claim C10: `add_corner` is atomic on failure: every failing call
leaves the grid exactly as it was, with no corner storage attached,
because all shape validations run before the grid is touched. -/
theorem C10_addCorners_atomic (g : Grid) (lon_b lat_b : NDArray) (e : Err)
    (h : (add_corner g lon_b lat_b).2.2 = some e) :
    (add_corner g lon_b lat_b).2.1 = g := by
  simp only [add_corner] at h ⊢
  split_ifs at h ⊢ <;> simp_all

/-- Witness for C10: the failing `(5, 5)`-corner call on the `(4, 5)`
grid leaves the grid unchanged. -/
theorem C10_witness :
    (add_corner exG45 ⟨[5, 5], List.replicate 25 0, true⟩
       ⟨[5, 5], List.replicate 25 0, true⟩).2.1 = exG45 :=
  C10_addCorners_atomic exG45 ⟨[5, 5], List.replicate 25 0, true⟩
    ⟨[5, 5], List.replicate 25 0, true⟩
    (.ShapeError "lon_b should be size (Nx+1, Ny+1)") (by decide)

/-- Claim C9: the contiguity check is non-fatal everywhere it runs.  A
performance warning is emitted for an array exactly when it is not
Fortran-contiguous; every array entering `esmf_grid`, `add_corner` or
`esmf_regrid_apply` goes through the check (the emitted warnings are
exactly the per-array warnings, even when the call later fails); and
flipping the contiguity flag of any input never changes the outcome of
the operation — the warning cannot raise or abort. -/
theorem C9_contiguity_warning (a lon lat lon_b lat_b ind : NDArray)
    (b1 b2 b3 : Bool) (g : Grid) (r : Regrid) :
    (warn_f_contiguous a = if a.fortran then [] else [fWarnMsg]) ∧
    (warn_f_contiguous a ≠ [] ↔ a.fortran = false) ∧
    ((esmf_grid lon lat).1 = warn_f_contiguous lon ++ warn_f_contiguous lat) ∧
    ((esmf_grid (setF lon b1) (setF lat b2)).2 = (esmf_grid lon lat).2) ∧
    ((add_corner g lon_b lat_b).1 = warn_f_contiguous lon_b ++ warn_f_contiguous lat_b) ∧
    ((add_corner g (setF lon_b b1) (setF lat_b b2)).2 = (add_corner g lon_b lat_b).2) ∧
    ((esmf_regrid_apply r ind).1 = warn_f_contiguous ind) ∧
    ((esmf_regrid_apply r (setF ind b3)).2 = (esmf_regrid_apply r ind).2) := by
  refine ⟨rfl, ?_, rfl, rfl, rfl, rfl, rfl, rfl⟩
  cases hf : a.fortran <;> simp [warn_f_contiguous, hf, fWarnMsg]

/-- Helper: the method lookup in `method_dict`, written out as a
case split over the five valid names. -/
theorem lookup_method_eq (m : String) :
    List.lookup m method_dict =
      if m = "bilinear" then some 0
      else if m = "conservative" then some 2
      else if m = "patch" then some 1
      else if m = "nearest_s2d" then some 3
      else if m = "nearest_d2s" then some 4
      else none := by
  by_cases h1 : m = "bilinear"
  · subst h1; rfl
  by_cases h2 : m = "conservative"
  · subst h2; rfl
  by_cases h3 : m = "patch"
  · subst h3; rfl
  by_cases h4 : m = "nearest_s2d"
  · subst h4; rfl
  by_cases h5 : m = "nearest_d2s"
  · subst h5; rfl
  simp only [method_dict, List.lookup,
    beq_eq_false_iff_ne.mpr h1, beq_eq_false_iff_ne.mpr h2,
    beq_eq_false_iff_ne.mpr h3, beq_eq_false_iff_ne.mpr h4,
    beq_eq_false_iff_ne.mpr h5]
  simp [h1, h2, h3, h4, h5]

/-- Claim C5: the method lookup succeeds exactly for the five members of
the closed enumeration, and every other method value makes
`esmf_regrid_build` fail with an invalid-method error that echoes the
full valid set. -/
theorem C5_method_enumeration (m : String) (sg dg : Grid) (f : Option String)
    (ed : List Nat) (er : Grid → Grid → Nat → Route) (fs : List (String × Nat)) :
    ((List.lookup m method_dict).isSome = true ↔ m ∈ valid_methods) ∧
    (m ∉ valid_methods →
      (esmf_regrid_build sg dg m f ed er fs).result =
        .raised (.InvalidMethodError valid_methods)) := by
  have hl := lookup_method_eq m
  constructor
  · rw [hl]; split_ifs with h1 h2 h3 h4 h5 <;> simp_all [valid_methods]
  · intro hm
    have hn : List.lookup m method_dict = none := by
      rw [hl]; split_ifs with h1 h2 h3 h4 h5 <;> simp_all [valid_methods]
    simp only [esmf_regrid_build, hn]
    simp [method_dict, valid_methods]

/-- Witness for C5: `not_a_method` is rejected with the full valid set,
and `bilinear` is looked up successfully. -/
theorem C5_witness :
    ((esmf_regrid_build exGrid2 exGrid2 "not_a_method" none [] exRouteFn []).result =
       .raised (.InvalidMethodError valid_methods)) ∧
    ((List.lookup "bilinear" method_dict).isSome = true) :=
  ⟨(C5_method_enumeration "not_a_method" exGrid2 exGrid2 none [] exRouteFn []).2
     (by decide),
   (C5_method_enumeration "bilinear" exGrid2 exGrid2 none [] exRouteFn []).1.mpr
     (by decide)⟩

/-- Claim C6: with method `conservative`, a source grid without corners
fails with a missing-corners error naming the source grid, a destination
grid without corners (source having them) fails naming the destination
grid, and when both grids have corners the corner validation passes —
the build never raises a missing-corners error. -/
theorem C6_conservative_corners (sg dg : Grid) (f : Option String) (ed : List Nat)
    (er : Grid → Grid → Nat → Route) (fs : List (String × Nat)) :
    (sg.has_corners = false →
      (esmf_regrid_build sg dg "conservative" f ed er fs).result =
        .raised (.MissingCornersError "source")) ∧
    (sg.has_corners = true → dg.has_corners = false →
      (esmf_regrid_build sg dg "conservative" f ed er fs).result =
        .raised (.MissingCornersError "destination")) ∧
    (sg.has_corners = true → dg.has_corners = true →
      ∀ w : String, (esmf_regrid_build sg dg "conservative" f ed er fs).result ≠
        .raised (.MissingCornersError w)) := by
  have hl : List.lookup "conservative" method_dict = some 2 := rfl
  refine ⟨?_, ?_, ?_⟩
  · intro h; simp [esmf_regrid_build, hl, h]
  · intro h1 h2; simp [esmf_regrid_build, hl, h1, h2]
  · intro h1 h2 w
    simp only [esmf_regrid_build, hl]
    rcases f with _ | p
    · simp [h1, h2]
    · by_cases hp : (List.lookup p fs).isSome <;> simp [h1, h2, hp]

/-- Witness for C6: the corner-free 2 by 2 grid is rejected as the
deficient source; the corner-carrying grid pair passes the corner
validation. -/
theorem C6_witness :
    ((esmf_regrid_build exGrid2 exGrid2 "conservative" none [] exRouteFn []).result =
       .raised (.MissingCornersError "source")) ∧
    ((esmf_regrid_build exGridC exGridC "conservative" none [] exRouteFn []).result ≠
       .raised (.MissingCornersError "source")) :=
  ⟨(C6_conservative_corners exGrid2 exGrid2 none [] exRouteFn []).1 (by decide),
   (C6_conservative_corners exGridC exGridC none [] exRouteFn []).2.2
     (by decide) (by decide) "source"⟩

/-- Claim C4: when a weight file already exists at the supplied path,
`esmf_regrid_build` never invokes the external weight-computation
engine, leaves the file system (and in particular the pre-existing
file) untouched, and — provided the earlier method and corner
validations pass — fails with the weight-file-exists error. -/
theorem C4_weight_file_guard (sg dg : Grid) (m : String) (p : String)
    (ed : List Nat) (er : Grid → Grid → Nat → Route) (fs : List (String × Nat))
    (hex : (List.lookup p fs).isSome = true) :
    ((esmf_regrid_build sg dg m (some p) ed er fs).engineCalls = 0) ∧
    ((esmf_regrid_build sg dg m (some p) ed er fs).fs = fs) ∧
    (∀ code : Nat, List.lookup m method_dict = some code →
      (m = "conservative" → sg.has_corners = true ∧ dg.has_corners = true) →
      (esmf_regrid_build sg dg m (some p) ed er fs).result =
        .raised .WeightFileExistsError) := by
  refine ⟨?_, ?_, ?_⟩
  · cases hm : List.lookup m method_dict
    all_goals simp only [esmf_regrid_build, hm]
    all_goals split_ifs <;> simp [hex]
  · cases hm : List.lookup m method_dict
    all_goals simp only [esmf_regrid_build, hm]
    all_goals split_ifs <;> simp [hex]
  · intro code hm hc
    simp only [esmf_regrid_build, hm]
    split_ifs with h1 h2
    · exact absurd (hc h1.1).1 (by simp [h1.2])
    · exact absurd (hc h2.1).2 (by simp [h2.2])
    · simp [hex]

/-- Witness for C4: building onto the occupied path `weights.nc` calls
the engine zero times, leaves the file system unchanged, and raises the
weight-file-exists error. -/
theorem C4_witness :
    ((esmf_regrid_build exGrid2 exGrid2 "bilinear" (some "weights.nc") [] exRouteFn
        [("weights.nc", 0)]).engineCalls = 0) ∧
    ((esmf_regrid_build exGrid2 exGrid2 "bilinear" (some "weights.nc") [] exRouteFn
        [("weights.nc", 0)]).fs = [("weights.nc", 0)]) ∧
    ((esmf_regrid_build exGrid2 exGrid2 "bilinear" (some "weights.nc") [] exRouteFn
        [("weights.nc", 0)]).result = .raised .WeightFileExistsError) :=
  have h := C4_weight_file_guard exGrid2 exGrid2 "bilinear" "weights.nc" [] exRouteFn
    [("weights.nc", 0)] (by decide)
  ⟨h.1, h.2.1, h.2.2 0 (by decide) (by decide)⟩

/-- Helper: a successfully built operator carries a source buffer of
shape `sourcegrid shape ++ extra_dims`, a destination buffer of shape
`destgrid shape ++ extra_dims`, and is not finalized. -/
theorem build_ok_fields {sg dg : Grid} {m : String} {f : Option String}
    {ed : List Nat} {er : Grid → Grid → Nat → Route} {fs : List (String × Nat)}
    {r : Regrid} (h : (esmf_regrid_build sg dg m f ed er fs).result = .ok r) :
    r.srcfield.arr.shape = sg.maxIndex ++ ed ∧
    r.dstfield.arr.shape = dg.maxIndex ++ ed ∧
    r.finalized = false := by
  cases hm : List.lookup m method_dict
  all_goals simp only [esmf_regrid_build, hm] at h
  · cases h
  · split_ifs at h with h1 h2
    split at h
    · split_ifs at h with hp
      injection h with h'
      subst h'
      exact ⟨rfl, rfl, rfl⟩
    · injection h with h'
      subst h'
      exact ⟨rfl, rfl, rfl⟩

/-- Helper: for a non-finalized operator, `esmf_regrid_apply` succeeds
exactly when the input broadcasts to the source buffer shape, a
non-broadcastable input raises the broadcast shape error, and a
successful output has the shape of the destination buffer. -/
theorem apply_behavior (r : Regrid) (a : NDArray) (hf : r.finalized = false) :
    ((esmf_regrid_apply r a).2.2.isOk = broadcastableTo a.shape r.srcfield.arr.shape) ∧
    (broadcastableTo a.shape r.srcfield.arr.shape = false →
      (esmf_regrid_apply r a).2.2 =
        .raised (.ShapeError "could not broadcast input array into source field")) ∧
    (∀ out : NDArray, (esmf_regrid_apply r a).2.2 = .ok out →
      out.shape = r.dstfield.arr.shape) := by
  cases hb : broadcastableTo a.shape r.srcfield.arr.shape
  · refine ⟨?_, fun _ => ?_, fun out hout => ?_⟩ <;>
      simp_all [esmf_regrid_apply, npBroadcastAssign, PyResult.isOk]
  · refine ⟨?_, fun hc => ?_, fun out hout => ?_⟩
    · simp [esmf_regrid_apply, npBroadcastAssign, hb, hf, PyResult.isOk]
    · exact absurd hc (by simp)
    · simp only [esmf_regrid_apply, npBroadcastAssign, hb] at hout
      simp only [if_true, eq_self_iff_true, hf, Bool.false_eq_true, if_false] at hout
      injection hout with h'
      subst h'
      rfl

/-- Claim C2 (amended): for every non-finalized operator built with
extra dimensions `ed`, `apply` succeeds exactly when the input shape is
numpy-broadcastable to `(Nx_src, Ny_src) ++ ed` — so an exact-shape
input succeeds, but so do some differently shaped broadcast-compatible
inputs; a non-broadcastable input fails with the broadcast shape error;
and a successful apply yields output of shape `(Nx_dst, Ny_dst) ++ ed`. -/
theorem C2_apply_broadcast {sg dg : Grid} {m : String} {f : Option String}
    {ed : List Nat} {er : Grid → Grid → Nat → Route} {fs : List (String × Nat)}
    {r : Regrid} (h : (esmf_regrid_build sg dg m f ed er fs).result = .ok r)
    (a : NDArray) :
    ((esmf_regrid_apply r a).2.2.isOk = broadcastableTo a.shape (sg.maxIndex ++ ed)) ∧
    (broadcastableTo a.shape (sg.maxIndex ++ ed) = false →
      (esmf_regrid_apply r a).2.2 =
        .raised (.ShapeError "could not broadcast input array into source field")) ∧
    (∀ out : NDArray, (esmf_regrid_apply r a).2.2 = .ok out →
      out.shape = dg.maxIndex ++ ed) := by
  obtain ⟨hs, hd, hf⟩ := build_ok_fields h
  have hb := apply_behavior r a hf
  rw [hs, hd] at hb
  exact hb

/-- Counterexample to C2 as stated: the operator built on the 2 by 2
grid accepts the input of shape `[2]`, which is not equal to the
declared shape `[2, 2] ++ []`, because the numpy assignment into the
source buffer broadcasts it; so apply does not succeed only on
exact-shape input. -/
theorem C2_counterexample :
    (exBuild2.result = .ok exOp2) ∧
    (exOp2.srcfield.arr.shape = [2, 2] ++ ([] : List Nat)) ∧
    ((⟨[2], [5, 6], true⟩ : NDArray).shape ≠ [2, 2] ++ ([] : List Nat)) ∧
    ((esmf_regrid_apply exOp2 ⟨[2], [5, 6], true⟩).2.2.isOk = true) := by decide

/-- Witness for C2 (amended) at the concrete 2 by 2 build: the success
of apply equals broadcastability of the input shape, and the concrete
output has the destination shape. -/
theorem C2_witness :
    ((esmf_regrid_apply exOp2 exIn4).2.2.isOk =
       broadcastableTo exIn4.shape (exGrid2.maxIndex ++ [])) ∧
    ((⟨[2, 2], [5, 6, 7, 8], true⟩ : NDArray).shape = exGrid2.maxIndex ++ []) :=
  have H := C2_apply_broadcast
    (by decide :
      (esmf_regrid_build exGrid2 exGrid2 "bilinear" none [] exRouteFn []).result =
        .ok exOp2)
    exIn4
  ⟨H.1, H.2.2 ⟨[2, 2], [5, 6, 7, 8], true⟩ (by decide)⟩

/-- Claim C1 (amended): on a finalized operator, apply never succeeds,
but it does not fail fast with a `UseAfterFinalizeError` flag check at
entry: for any broadcastable input the input is first written into the
(still existing) source buffer, and the failure is the engine's own
destroyed-regrid error raised by the regrid invocation afterwards. -/
theorem C1_apply_after_finalize (r : Regrid) (a : NDArray)
    (hfin : r.finalized = true) :
    ((esmf_regrid_apply r a).2.2.isOk = false) ∧
    (∀ e : Err, (esmf_regrid_apply r a).2.2 = .raised e → e ≠ .UseAfterFinalizeError) ∧
    (∀ d : List Int, npBroadcastAssign r.srcfield.arr.shape a = some d →
      (esmf_regrid_apply r a).2.1.srcfield.arr.data = d ∧
      (esmf_regrid_apply r a).2.2 =
        .raised (.EngineError "Regrid object has been destroyed")) := by
  cases hd : npBroadcastAssign r.srcfield.arr.shape a
  · refine ⟨?_, fun e he => ?_, fun d hdd => ?_⟩
    · simp [esmf_regrid_apply, hd, PyResult.isOk]
    · simp only [esmf_regrid_apply, hd] at he
      injection he with h'
      subst h'
      simp
    · exact Option.noConfusion hdd
  · refine ⟨?_, fun e he => ?_, fun d hdd => ?_⟩
    · simp [esmf_regrid_apply, hd, hfin, PyResult.isOk]
    · simp only [esmf_regrid_apply, hd, hfin, if_true] at he
      injection he with h'
      subst h'
      simp
    · injection hdd with h'
      subst h'
      exact ⟨by simp [esmf_regrid_apply, hd, hfin],
             by simp [esmf_regrid_apply, hd, hfin]⟩

/-- Counterexample to C1 as stated: applying the finalized 2 by 2
operator does not raise `UseAfterFinalizeError` and does not fail before
touching the buffers — the source buffer, previously all zeros, ends up
holding the input data, and the error is the engine's destroyed-regrid
error. -/
theorem C1_counterexample :
    ((esmf_regrid_apply (esmf_regrid_finalize exOp2) exIn4).2.2 =
       .raised (.EngineError "Regrid object has been destroyed")) ∧
    ((esmf_regrid_apply (esmf_regrid_finalize exOp2) exIn4).2.2 ≠
       .raised .UseAfterFinalizeError) ∧
    ((esmf_regrid_apply (esmf_regrid_finalize exOp2) exIn4).2.1.srcfield.arr.data =
       [5, 6, 7, 8]) ∧
    ((esmf_regrid_finalize exOp2).srcfield.arr.data = [0, 0, 0, 0]) := by decide

/-- Witness for C1 (amended) on a concrete finalized one-cell operator:
the input is written into the source buffer and the engine error is
raised. -/
theorem C1_witness :
    ((esmf_regrid_apply (esmf_regrid_finalize exOp) exIn7).2.1.srcfield.arr.data = [7]) ∧
    ((esmf_regrid_apply (esmf_regrid_finalize exOp) exIn7).2.2 =
       .raised (.EngineError "Regrid object has been destroyed")) :=
  (C1_apply_after_finalize (esmf_regrid_finalize exOp) exIn7 (by decide)).2.2
    [7] (by decide)

/-- Claim C3 (amended): the array returned by a successful apply is the
destination buffer itself, not an independent copy — its contents are
the destination buffer of the post-call operator state, through which a
later apply on the same operator overwrites them; finalize, however,
leaves the buffer contents unchanged, so previously returned outputs
stay readable with their values after finalize. -/
theorem C3_output_is_view (r r2 : Regrid) (a out : NDArray) (w : List String)
    (h : esmf_regrid_apply r a = (w, r2, .ok out)) :
    out.data = outputView r2 ∧
    outputView (esmf_regrid_finalize r2) = outputView r2 := by
  refine ⟨?_, rfl⟩
  have h3 := congrArg (fun t => t.2.2) h
  have h2 := congrArg (fun t => t.2.1) h
  simp only at h2 h3
  cases hd : npBroadcastAssign r.srcfield.arr.shape a
  all_goals simp only [esmf_regrid_apply, hd] at h2 h3
  · cases h3
  · by_cases hfb : r.finalized = true
    · simp only [hfb, if_true] at h3
      cases h3
    · simp only [hfb, if_true, eq_self_iff_true, Bool.false_eq_true, if_false] at h2 h3
      injection h3 with h'
      subst h'
      subst h2
      rfl

/-- Counterexample to C3 as stated: after a second apply on the same
one-cell identity operator, the destination buffer — which is exactly
the array object returned by the first apply — holds the second input
`[9]` instead of the first output `[7]`: a later apply does not leave
the previously returned output unchanged. -/
theorem C3_counterexample :
    ((esmf_regrid_apply exOp exIn7).2.2 = .ok ⟨[1, 1], [7], true⟩) ∧
    (outputView exR1 = [7]) ∧
    (outputView (esmf_regrid_apply exR1 exIn9).2.1 = [9]) ∧
    (([9] : List Int) ≠ [7]) := by decide

/-- Witness for C3 (amended) at the concrete one-cell apply. -/
theorem C3_witness :
    ((⟨[1, 1], [7], true⟩ : NDArray).data = outputView exR1) ∧
    (outputView (esmf_regrid_finalize exR1) = outputView exR1) :=
  C3_output_is_view exOp exR1 exIn7 ⟨[1, 1], [7], true⟩ [] (by decide)

end XesmfBackend
